import Mathlib

/-!
Verification of `deploy.py`, a linear GitHub-Pages deployment script.

The script is a sequential orchestration of HTTP calls and git commands.
We embed each function shallowly: the responses of the external HTTP API
and the outcomes of the external git commands are explicit arguments
(oracles), and the observable behaviour (returned values, messages
printed, warnings, fatal exits, whether a creation request was issued)
is returned as data.  Machine behaviour that the claims mention only
through library calls (`shutil.copytree`, `shutil.copy2`) is represented
by constructors naming the call made.
-/

/-- The parts of a `requests.Response` that `deploy.py` reads:
`resp.status_code`, `resp.text`, and the single JSON field
`resp.json()["clone_url"]` it ever extracts. -/
structure HttpResponse where
  statusCode : Nat
  text : String
  cloneUrl : String
deriving DecidableEq, Repr

/-- Result of `enable_github_pages` (deploy.py lines 71-85): the returned
pages URL, whether the call took the success branch (status 201 or 422),
and the warning lines printed on the failure branch. -/
structure PagesResult where
  url : String
  success : Bool
  warnings : List String
deriving DecidableEq, Repr

/-- Embedding of `enable_github_pages` (deploy.py lines 71-85).  The POST
response is an oracle argument.  Status 201 or 422 ("already enabled")
takes the success branch and computes the URL with the apex special case
(line 80); any other status prints two warnings and returns
`https://{username}.github.io/{repo}` (line 85). -/
def enable_github_pages (username repo : String) (resp : HttpResponse) : PagesResult :=
  if resp.statusCode = 201 ∨ resp.statusCode = 422 then
    { url := if repo = username ++ ".github.io"
        then "https://" ++ username ++ ".github.io/"
        else "https://" ++ username ++ ".github.io/" ++ repo
      success := true
      warnings := [] }
  else
    { url := "https://" ++ username ++ ".github.io/" ++ repo
      success := false
      warnings :=
        ["  ⚠ Pages API returned " ++ toString resp.statusCode ++ ": " ++ resp.text,
         "    You can enable Pages manually at: https://github.com/" ++ username ++ "/" ++ repo ++ "/settings/pages"] }

/-- Modelled from the spec's words (§4.5, §8): the public pages URL is the
bare pages host when the repository name equals `account ++ ".github.io"`,
and otherwise the pages host with the repository name as a path segment.
Used to compare the spec's URL convention against the code. -/
def specPagesUrl (account repo : String) : String :=
  if repo = account ++ ".github.io"
    then "https://" ++ account ++ ".github.io/"
    else "https://" ++ account ++ ".github.io/" ++ repo

/-- C1: when the pages-enable call succeeds (status 201 or 422), the URL
returned by `enable_github_pages` follows the spec's convention: the bare
pages host for an apex repository `account ++ ".github.io"`, otherwise the
pages host with `/{repo}` appended. -/
theorem pages_url_convention_on_success (username repo : String) (resp : HttpResponse)
    (h : resp.statusCode = 201 ∨ resp.statusCode = 422) :
    (enable_github_pages username repo resp).url = specPagesUrl username repo := by
  simp only [enable_github_pages, specPagesUrl, if_pos h]

/-- Witness for C1 at the spec's scenario: account `alice`, repository
`alice.github.io`, status 201 — the reported URL is
`https://alice.github.io/`, with no repository path segment. -/
theorem pages_url_convention_on_success_witness :
    (enable_github_pages "alice" "alice.github.io" ⟨201, "", ""⟩).url = "https://alice.github.io/" := by
  have h := pages_url_convention_on_success "alice" "alice.github.io" ⟨201, "", ""⟩ (Or.inl rfl)
  rw [h]; decide

/-- C2 counterexample: the claim says the apex special case is applied even
when the pages API call fails, but on a failing status (here 404) the code
returns `https://alice.github.io/alice.github.io` for account `alice` and
repository `alice.github.io`, not the convention's `https://alice.github.io/`. -/
theorem pages_url_failure_ignores_apex_cex :
    (enable_github_pages "alice" "alice.github.io" ⟨404, "Not Found", ""⟩).url
      = "https://alice.github.io/alice.github.io" ∧
    specPagesUrl "alice" "alice.github.io" = "https://alice.github.io/" ∧
    (enable_github_pages "alice" "alice.github.io" ⟨404, "Not Found", ""⟩).url
      ≠ specPagesUrl "alice" "alice.github.io" := by
  refine ⟨by decide, by decide, by decide⟩

/-- C2 (amended): `enable_github_pages` always returns a URL and never
aborts the run.  On status 201 or 422 the URL follows the spec's apex
convention and nothing is warned; on any other status the call only warns
and the best-guess URL is always `https://{username}.github.io/{repo}`,
the apex special case not being applied on that branch. -/
theorem pages_url_total_convention (username repo : String) (resp : HttpResponse) :
    ((resp.statusCode = 201 ∨ resp.statusCode = 422) →
      (enable_github_pages username repo resp).url = specPagesUrl username repo ∧
      (enable_github_pages username repo resp).warnings = []) ∧
    (resp.statusCode ≠ 201 → resp.statusCode ≠ 422 →
      (enable_github_pages username repo resp).url
        = "https://" ++ username ++ ".github.io/" ++ repo ∧
      (enable_github_pages username repo resp).success = false ∧
      (enable_github_pages username repo resp).warnings ≠ []) := by
  constructor
  · intro h
    simp only [enable_github_pages, specPagesUrl, if_pos h]
    exact ⟨trivial, trivial⟩
  · intro h1 h2
    have h : ¬ (resp.statusCode = 201 ∨ resp.statusCode = 422) := by
      rintro (h | h) <;> [exact h1 h; exact h2 h]
    simp only [enable_github_pages, if_neg h]
    refine ⟨trivial, trivial, by simp⟩

/-- Witness for C2's amended theorem at account `alice`, repository
`alice.github.io`, failing status 404. -/
theorem pages_url_total_convention_witness :
    (enable_github_pages "alice" "alice.github.io" ⟨404, "Not Found", ""⟩).url
      = "https://alice.github.io/alice.github.io" ∧
    (enable_github_pages "alice" "alice.github.io" ⟨404, "Not Found", ""⟩).warnings ≠ [] := by
  have h := (pages_url_total_convention "alice" "alice.github.io" ⟨404, "Not Found", ""⟩).2
    (by decide) (by decide)
  exact ⟨h.1, h.2.2⟩

/-- C5: statuses 201 ("created") and 422 ("already configured") are both
treated as success by `enable_github_pages`: the success flag is set, no
warning is printed, and exactly the same URL is returned in both cases,
whatever the response bodies. -/
theorem pages_created_eq_already_enabled (username repo : String) (b₁ c₁ b₂ c₂ : String) :
    (enable_github_pages username repo ⟨201, b₁, c₁⟩).success = true ∧
    (enable_github_pages username repo ⟨422, b₂, c₂⟩).success = true ∧
    (enable_github_pages username repo ⟨201, b₁, c₁⟩).url
      = (enable_github_pages username repo ⟨422, b₂, c₂⟩).url ∧
    (enable_github_pages username repo ⟨201, b₁, c₁⟩).warnings = [] ∧
    (enable_github_pages username repo ⟨422, b₂, c₂⟩).warnings = [] := by
  simp only [enable_github_pages]
  norm_num

/-- Witness for C5 at account `alice`, repository `portfolio`. -/
theorem pages_created_eq_already_enabled_witness :
    (enable_github_pages "alice" "portfolio" ⟨201, "", ""⟩).url
      = (enable_github_pages "alice" "portfolio" ⟨422, "already enabled", ""⟩).url :=
  (pages_created_eq_already_enabled "alice" "portfolio" "" "" "already enabled" "").2.2.1

/-- Boolean substring test on character lists (needle occurs contiguously
in the haystack), used to state that diagnostic messages contain pieces
of the response. -/
def hasSub (needle : List Char) : List Char → Bool
  | [] => needle.isEmpty
  | c :: rest => needle.isPrefixOf (c :: rest) || hasSub needle rest

lemma isPrefixOf_self_append (l t : List Char) : l.isPrefixOf (l ++ t) = true := by
  induction l with
  | nil => cases t <;> rfl
  | cons c cs ih => simp [List.isPrefixOf, ih]

lemma hasSub_of_isPrefixOf {n hay : List Char} (h : n.isPrefixOf hay = true) :
    hasSub n hay = true := by
  cases hay with
  | nil => cases n with
    | nil => rfl
    | cons a as => simp [List.isPrefixOf] at h
  | cons c rest => simp [hasSub, h]

lemma hasSub_append (n s t : List Char) : hasSub n (s ++ n ++ t) = true := by
  induction s with
  | nil => exact hasSub_of_isPrefixOf (isPrefixOf_self_append n t)
  | cons c cs ih =>
      show hasSub n (c :: (cs ++ n ++ t)) = true
      simp only [hasSub, Bool.or_eq_true]
      exact Or.inr ih

/-- The diagnostic printed by `sys.exit` when repository creation fails
(deploy.py line 65): `f"  ✗ Could not create repo: {resp.status_code} {resp.text}"`. -/
def createRepoFailMsg (resp : HttpResponse) : String :=
  "  ✗ Could not create repo: " ++ toString resp.statusCode ++ " " ++ resp.text

/-- Result of `ensure_repo_exists`: either a fatal `sys.exit` message or
the clone URL, together with whether a POST /user/repos creation request
was issued. -/
structure EnsureResult where
  outcome : Except String String
  creationIssued : Bool
deriving Repr

/-- Embedding of `ensure_repo_exists` (deploy.py lines 48-68).  The
responses of GET /repos/{username}/{repo} and POST /user/repos are oracle
arguments.  Status 200 on the GET returns the existing clone URL with no
creation request; otherwise a creation request is issued, any status
outside 200/201 is fatal with a diagnostic carrying status code and body,
and a 200/201 returns the new clone URL. -/
def ensure_repo_exists (username repo : String) (getResp postResp : HttpResponse) :
    EnsureResult :=
  if getResp.statusCode = 200 then
    { outcome := Except.ok getResp.cloneUrl, creationIssued := false }
  else if ¬ (postResp.statusCode = 200 ∨ postResp.statusCode = 201) then
    { outcome := Except.error (createRepoFailMsg postResp), creationIssued := true }
  else
    { outcome := Except.ok postResp.cloneUrl, creationIssued := true }

/-- External state for the idempotency argument: whether the remote
repository currently exists and its clone URL.  The platform answers the
existence GET with 200 exactly when the repository exists (404 otherwise)
and a creation POST creates it and answers 201. -/
structure World where
  repoExists : Bool
  cloneUrl : String
deriving DecidableEq, Repr

def worldGet (w : World) : HttpResponse :=
  if w.repoExists then ⟨200, "OK", w.cloneUrl⟩ else ⟨404, "Not Found", ""⟩

def worldPost (w : World) : World × HttpResponse :=
  (⟨true, w.cloneUrl⟩, ⟨201, "Created", w.cloneUrl⟩)

/-- One run of `ensure_repo_exists` against the world: the world advances
only when the creation POST is actually issued (GET not 200). -/
def runEnsure (username repo : String) (w : World) : World × EnsureResult :=
  let g := worldGet w
  let w' := if g.statusCode = 200 then w else (worldPost w).1
  (w', ensure_repo_exists username repo g (worldPost w).2)

/-- C3: if the existence GET answers 200, `ensure_repo_exists` returns
that response's clone URL unchanged and issues no creation request; and
against an unchanged external world, the second of two consecutive runs
never issues a creation request. -/
theorem ensure_repo_exists_idempotent (username repo : String)
    (getResp postResp : HttpResponse) (w : World) :
    (getResp.statusCode = 200 →
      ensure_repo_exists username repo getResp postResp
        = ⟨Except.ok getResp.cloneUrl, false⟩) ∧
    ((runEnsure username repo (runEnsure username repo w).1).2).creationIssued = false := by
  constructor
  · intro h
    simp [ensure_repo_exists, h]
  · cases hw : w.repoExists <;>
      simp [runEnsure, worldGet, worldPost, ensure_repo_exists, hw]

/-- Witness for C3: a 200 existence response for `alice/portfolio` returns
the clone URL with no creation request, and a second run against a world
where the repository was initially absent issues no creation request. -/
theorem ensure_repo_exists_idempotent_witness :
    ensure_repo_exists "alice" "portfolio"
        ⟨200, "OK", "https://github.com/alice/portfolio.git"⟩ ⟨404, "", ""⟩
      = ⟨Except.ok "https://github.com/alice/portfolio.git", false⟩ ∧
    ((runEnsure "alice" "portfolio"
        (runEnsure "alice" "portfolio" ⟨false, "https://github.com/alice/portfolio.git"⟩).1).2).creationIssued
      = false := by
  have h := ensure_repo_exists_idempotent "alice" "portfolio"
    ⟨200, "OK", "https://github.com/alice/portfolio.git"⟩ ⟨404, "", ""⟩
    ⟨false, "https://github.com/alice/portfolio.git"⟩
  exact ⟨h.1 rfl, h.2⟩

/-- C8: when the creation POST answers outside 200/201,
`ensure_repo_exists` is fatal with a diagnostic containing the response's
status code and body; when it answers 200 or 201, the new clone URL is
returned. -/
theorem create_repo_response_handling (username repo : String)
    (getResp postResp : HttpResponse) (hg : getResp.statusCode ≠ 200) :
    ((postResp.statusCode ≠ 200 ∧ postResp.statusCode ≠ 201) →
      (ensure_repo_exists username repo getResp postResp).outcome
          = Except.error (createRepoFailMsg postResp) ∧
      hasSub (toString postResp.statusCode).data (createRepoFailMsg postResp).data = true ∧
      hasSub postResp.text.data (createRepoFailMsg postResp).data = true) ∧
    ((postResp.statusCode = 200 ∨ postResp.statusCode = 201) →
      (ensure_repo_exists username repo getResp postResp).outcome
        = Except.ok postResp.cloneUrl) := by
  constructor
  · rintro ⟨h1, h2⟩
    have hp : ¬ (postResp.statusCode = 200 ∨ postResp.statusCode = 201) := by
      rintro (h | h) <;> [exact h1 h; exact h2 h]
    refine ⟨by simp [ensure_repo_exists, hg, hp], ?_, ?_⟩
    · have : (createRepoFailMsg postResp).data
          = "  ✗ Could not create repo: ".data ++ (toString postResp.statusCode).data
            ++ (" " ++ postResp.text).data := by
        simp [createRepoFailMsg, String.data_append]
      rw [this]
      exact hasSub_append _ _ _
    · have : (createRepoFailMsg postResp).data
          = ("  ✗ Could not create repo: " ++ toString postResp.statusCode ++ " ").data
            ++ postResp.text.data ++ [] := by
        simp [createRepoFailMsg, String.data_append]
      rw [this]
      exact hasSub_append _ _ _
  · intro h
    simp only [ensure_repo_exists, if_neg hg, if_neg (not_not_intro h)]

/-- Witness for C8: a 422 creation response for `alice/portfolio` is fatal
and the diagnostic contains `422` and the body; a 201 creation response
returns the clone URL. -/
theorem create_repo_response_handling_witness :
    (ensure_repo_exists "alice" "portfolio" ⟨404, "Not Found", ""⟩
        ⟨422, "name already exists", ""⟩).outcome
      = Except.error (createRepoFailMsg ⟨422, "name already exists", ""⟩) ∧
    hasSub (toString (422 : Nat)).data
      (createRepoFailMsg ⟨422, "name already exists", ""⟩).data = true ∧
    (ensure_repo_exists "alice" "portfolio" ⟨404, "Not Found", ""⟩
        ⟨201, "Created", "https://github.com/alice/portfolio.git"⟩).outcome
      = Except.ok "https://github.com/alice/portfolio.git" := by
  have h₁ := (create_repo_response_handling "alice" "portfolio" ⟨404, "Not Found", ""⟩
    ⟨422, "name already exists", ""⟩ (by decide)).1 ⟨by decide, by decide⟩
  have h₂ := (create_repo_response_handling "alice" "portfolio" ⟨404, "Not Found", ""⟩
    ⟨201, "Created", "https://github.com/alice/portfolio.git"⟩ (by decide)).2 (Or.inr rfl)
  exact ⟨h₁.1, h₁.2.1, h₂⟩

/-- C10: whenever the existence GET answers anything other than exactly
200 — authentication or server errors such as 401, 403 or 500 included —
`ensure_repo_exists` treats the repository as absent: it issues a creation
request, and its result does not depend on which non-200 status the GET
returned. -/
theorem existence_check_non_200_creates (username repo : String)
    (g g' postResp : HttpResponse)
    (hg : g.statusCode ≠ 200) (hg' : g'.statusCode ≠ 200) :
    (ensure_repo_exists username repo g postResp).creationIssued = true ∧
    ensure_repo_exists username repo g postResp
      = ensure_repo_exists username repo g' postResp := by
  constructor
  · by_cases hp : postResp.statusCode = 200 ∨ postResp.statusCode = 201 <;>
      simp [ensure_repo_exists, hg, hp]
  · simp only [ensure_repo_exists, if_neg hg, if_neg hg']

/-- Witness for C10: a 401 and a 500 existence response both lead to a
creation request and to identical results. -/
theorem existence_check_non_200_creates_witness :
    (ensure_repo_exists "alice" "portfolio" ⟨401, "Unauthorized", ""⟩
        ⟨201, "Created", "u"⟩).creationIssued = true ∧
    ensure_repo_exists "alice" "portfolio" ⟨401, "Unauthorized", ""⟩ ⟨201, "Created", "u"⟩
      = ensure_repo_exists "alice" "portfolio" ⟨500, "Server Error", ""⟩ ⟨201, "Created", "u"⟩ :=
  existence_check_non_200_creates "alice" "portfolio" ⟨401, "Unauthorized", ""⟩
    ⟨500, "Server Error", ""⟩ ⟨201, "Created", "u"⟩ (by decide) (by decide)

/-- Result of the push phase of `deploy` (deploy.py lines 150-155):
whether `git branch -M main` was run, how many pushes of refspec
`main:main` were attempted, and the final outcome — `Except.error e`
models an uncaught `git.exc.GitCommandError` carrying the git error `e`,
which aborts the run. -/
structure PushPhaseResult where
  renamedToMain : Bool
  attempts : Nat
  outcome : Except String Unit
deriving Repr

/-- Embedding of the push phase of `deploy` (deploy.py lines 150-155).
The outcomes of the first force-push and of the force-push retried after
`git branch -M main` are oracle arguments.  A failing first push is
caught, the branch is renamed and the push retried; the second push is
not guarded, so its error propagates. -/
def deploy_push (firstPush secondPush : Except String Unit) : PushPhaseResult :=
  match firstPush with
  | Except.ok _ => ⟨false, 1, Except.ok ()⟩
  | Except.error _ =>
    match secondPush with
    | Except.ok _ => ⟨true, 2, Except.ok ()⟩
    | Except.error e => ⟨true, 2, Except.error e⟩

/-- C4: when the first force-push of `main:main` fails, the publisher
renames the local branch to `main` and retries the push exactly once
(two attempts in total, and never more than two on any run); the outcome
of the run is then exactly the second push's outcome, so a second failure
is fatal with the underlying git error surfaced verbatim. -/
theorem push_retry_once_then_fatal (e₁ : String) (second : Except String Unit) :
    (deploy_push (Except.error e₁) second).renamedToMain = true ∧
    (deploy_push (Except.error e₁) second).attempts = 2 ∧
    (deploy_push (Except.error e₁) second).outcome = second ∧
    (∀ f : Except String Unit, (deploy_push f second).attempts ≤ 2) := by
  refine ⟨?_, ?_, ?_, ?_⟩
  · cases second <;> rfl
  · cases second <;> rfl
  · cases second <;> rfl
  · intro f
    cases f <;> cases second <;> simp [deploy_push]

/-- Witness for C4: first push fails with a non-fast-forward error, the
retry fails with a permissions error — the branch was renamed, exactly two
attempts were made, and the second git error is the surfaced outcome. -/
theorem push_retry_once_then_fatal_witness :
    (deploy_push (Except.error "rejected: failed to push") (Except.error "permission denied")).renamedToMain = true ∧
    (deploy_push (Except.error "rejected: failed to push") (Except.error "permission denied")).attempts = 2 ∧
    (deploy_push (Except.error "rejected: failed to push") (Except.error "permission denied")).outcome
      = Except.error "permission denied" :=
  let h := push_retry_once_then_fatal "rejected: failed to push" (Except.error "permission denied")
  ⟨h.1, h.2.1, h.2.2.1⟩

/-- What a manifest entry looks like at the source directory: the three
cases distinguished by `src.is_dir()` / `src.is_file()` in deploy.py
lines 128-135. -/
inductive SrcKind where
  | dir
  | file
  | absent
deriving DecidableEq, Repr

/-- The action the file-staging loop takes for one manifest entry:
`copiedDir` stands for `shutil.copytree(src, dst, dirs_exist_ok=True)`
(recursive copy, overwriting existing destination contents), `copiedFile`
for `shutil.copy2(src, dst)` (file copy preserving metadata, overwriting
any existing file), and `warned` for the printed skip warning. -/
inductive StageAction where
  | copiedDir
  | copiedFile
  | warned (msg : String)
deriving DecidableEq, Repr

/-- One iteration of the staging loop (deploy.py lines 125-135) on an
entry whose source has kind `k`. -/
def stageOne (item : String) (k : SrcKind) : StageAction :=
  match k with
  | SrcKind.dir => StageAction.copiedDir
  | SrcKind.file => StageAction.copiedFile
  | SrcKind.absent => StageAction.warned ("  ⚠ Skipping missing file: " ++ item)

/-- Embedding of the staging loop of `deploy` (deploy.py lines 125-135):
every manifest entry is processed in order against the source directory
`fs`, and each yields exactly one action. -/
def copy_portfolio_files (manifest : List String) (fs : String → SrcKind) :
    List (String × StageAction) :=
  manifest.map (fun item => (item, stageOne item (fs item)))

/-- The manifest `PORTFOLIO_FILES` of deploy.py lines 23-26. -/
def PORTFOLIO_FILES : List String := ["index.html"]

/-- Recognises the warning action, for counting warnings. -/
def isWarned : StageAction → Bool
  | StageAction.warned _ => true
  | _ => false

/-- C6: staging is total-or-warned.  Every manifest entry yields exactly
one action and the loop runs to the end of the manifest (no entry is
fatal): a directory entry is copied recursively with overwrite, a regular
file entry is copied with metadata preserved and overwrite, and an absent
entry yields exactly one skip warning naming it; overall the number of
warning actions equals the number of absent entries, so nothing vanishes
silently. -/
theorem stage_total_or_warned (manifest : List String) (fs : String → SrcKind)
    (item : String) (hmem : item ∈ manifest) :
    (item, stageOne item (fs item)) ∈ copy_portfolio_files manifest fs ∧
    (fs item = SrcKind.dir → stageOne item (fs item) = StageAction.copiedDir) ∧
    (fs item = SrcKind.file → stageOne item (fs item) = StageAction.copiedFile) ∧
    (fs item = SrcKind.absent →
      stageOne item (fs item) = StageAction.warned ("  ⚠ Skipping missing file: " ++ item)) ∧
    (copy_portfolio_files manifest fs).length = manifest.length ∧
    (copy_portfolio_files manifest fs).countP (fun p => isWarned p.2)
      = manifest.countP (fun it => fs it = SrcKind.absent) := by
  refine ⟨?_, ?_, ?_, ?_, ?_, ?_⟩
  · exact List.mem_map_of_mem _ hmem
  · intro h; simp [stageOne, h]
  · intro h; simp [stageOne, h]
  · intro h; simp [stageOne, h]
  · simp [copy_portfolio_files]
  · rw [copy_portfolio_files, List.countP_map]
    refine List.countP_congr ?_
    intro it _
    cases h : fs it <;> simp [stageOne, isWarned, Function.comp, h]

/-- Witness for C6 with manifest `[index.html, missing.txt]`, where
`index.html` is a regular file at the source and `missing.txt` is absent:
the present entry is copied, and exactly one warning is produced. -/
theorem stage_total_or_warned_witness :
    ("index.html",
      stageOne "index.html"
        ((fun s => if s = "index.html" then SrcKind.file else SrcKind.absent) "index.html"))
      ∈ copy_portfolio_files ["index.html", "missing.txt"]
          (fun s => if s = "index.html" then SrcKind.file else SrcKind.absent) ∧
    (copy_portfolio_files ["index.html", "missing.txt"]
        (fun s => if s = "index.html" then SrcKind.file else SrcKind.absent)).countP
        (fun p => isWarned p.2)
      = (["index.html", "missing.txt"] : List String).countP
          (fun it => (fun s => if s = "index.html" then SrcKind.file else SrcKind.absent) it
            = SrcKind.absent) := by
  have h := stage_total_or_warned ["index.html", "missing.txt"]
    (fun s => if s = "index.html" then SrcKind.file else SrcKind.absent)
    "index.html" (by simp)
  exact ⟨h.1, h.2.2.2.2.2⟩

/-- The message passed to `sys.exit` when no token is available
(deploy.py lines 212-218); `sys.exit` with a string prints it and exits
with status 1. -/
def tokenMissingMsg : String :=
  "✗ GitHub token required.\n  Pass --token YOUR_TOKEN  or  export GITHUB_TOKEN=YOUR_TOKEN\n\n  Create one at: github.com → Settings → Developer Settings → Personal Access Tokens\n  Required scopes: repo, write:pages"

/-- The observable steps of `main` (deploy.py lines 177-226) that the
credential gate decides between: an HTTP request (all of which happen
inside `deploy`), the fatal `sys.exit`, or entering `deploy` with the
resolved token. -/
inductive MainEvent where
  | httpCall (method : String) (path : String)
  | exitFatal (code : Nat) (msg : String)
  | startDeploy (token : String)
deriving DecidableEq, Repr

/-- Token resolution of deploy.py lines 194-198: the `--token` flag value
if the flag was given, else the `GITHUB_TOKEN` environment variable, else
the empty string (argparse default `os.environ.get("GITHUB_TOKEN", "")`). -/
def resolve_token (flagToken envGithubToken : Option String) : String :=
  match flagToken with
  | some t => t
  | none => envGithubToken.getD ""

/-- Embedding of `main` up to the credential gate (deploy.py lines
210-226): an empty resolved token hits `sys.exit` (exit status 1) before
`deploy` is ever entered, hence before any HTTP request; otherwise
`deploy` is entered with the token and the HTTP calls happen inside it. -/
def main_events (flagToken envGithubToken : Option String) : List MainEvent :=
  let token := resolve_token flagToken envGithubToken
  if token = "" then [MainEvent.exitFatal 1 tokenMissingMsg]
  else [MainEvent.startDeploy token]

lemma tokenMissingMsg_names_remediation :
    hasSub "--token".data tokenMissingMsg.data = true ∧
    hasSub "GITHUB_TOKEN".data tokenMissingMsg.data = true ∧
    hasSub "repo, write:pages".data tokenMissingMsg.data = true := by
  refine ⟨by decide, by decide, by decide⟩

/-- C7: whenever the resolved credential is empty — in particular when it
is absent from both the `--token` flag and the `GITHUB_TOKEN` environment
variable — `main` exits with the non-zero status 1 without entering
`deploy`, so before any HTTP call is made, and the exit message names the
flag, the environment variable and the required permission scopes. -/
theorem missing_token_exits_before_http (flagToken envGithubToken : Option String)
    (h : resolve_token flagToken envGithubToken = "") :
    main_events flagToken envGithubToken = [MainEvent.exitFatal 1 tokenMissingMsg] ∧
    (∀ m p, MainEvent.httpCall m p ∉ main_events flagToken envGithubToken) ∧
    (∀ t, MainEvent.startDeploy t ∉ main_events flagToken envGithubToken) ∧
    (1 : Nat) ≠ 0 ∧
    hasSub "--token".data tokenMissingMsg.data = true ∧
    hasSub "GITHUB_TOKEN".data tokenMissingMsg.data = true ∧
    hasSub "repo, write:pages".data tokenMissingMsg.data = true := by
  have he : main_events flagToken envGithubToken = [MainEvent.exitFatal 1 tokenMissingMsg] := by
    simp [main_events, h]
  refine ⟨he, ?_, ?_, by decide, tokenMissingMsg_names_remediation.1,
    tokenMissingMsg_names_remediation.2.1, tokenMissingMsg_names_remediation.2.2⟩
  · intro m p hmem
    rw [he] at hmem
    simp at hmem
  · intro t hmem
    rw [he] at hmem
    simp at hmem

/-- Witness for C7: flag not given and environment variable unset — the
run is exactly the fatal exit, and no HTTP call event exists. -/
theorem missing_token_exits_before_http_witness :
    main_events none none = [MainEvent.exitFatal 1 tokenMissingMsg] ∧
    (∀ m p, MainEvent.httpCall m p ∉ main_events none none) :=
  let h := missing_token_exits_before_http none none rfl
  ⟨h.1, h.2.1⟩

/-- Fuel-indexed scan implementing Python `str.replace` semantics for a
non-empty pattern: scan left to right, replace each non-overlapping
occurrence of `old` by `new` and continue after it.  The fuel bounds the
scan; callers pass the length of the scanned list, which suffices because
every step consumes at least one character. -/
def replaceAllAux (old new : List Char) : Nat → List Char → List Char
  | 0, _ => []
  | _ + 1, [] => []
  | fuel + 1, c :: rest =>
    if old.isPrefixOf (c :: rest) then
      new ++ replaceAllAux old new fuel ((c :: rest).drop old.length)
    else
      c :: replaceAllAux old new fuel rest

/-- Embedding of Python `s.replace(old, new)` for the non-empty pattern
used by deploy.py: every occurrence of `old` in `s` is replaced, not only
a leading one. -/
def pyReplace (s old new : String) : String :=
  String.mk (replaceAllAux old.data new.data s.data.length s.data)

/-- Embedding of deploy.py line 143:
`remote_url.replace("https://", f"https://{token}@")`. -/
def authed_url (remoteUrl token : String) : String :=
  pyReplace remoteUrl "https://" ("https://" ++ token ++ "@")

/-- Modelled from the spec's words (§4.4): the push URL is the clone URL
with its `https://` scheme prefix replaced by `https://{credential}@` —
i.e. the credential is embedded once, at the scheme. -/
def specAuthedUrl (cloneUrl credential : String) : String :=
  "https://" ++ credential ++ "@" ++ String.mk (cloneUrl.data.drop ("https://".data.length))

/-- Result of the remote-attachment step (deploy.py lines 144-148): the
URL the `origin` remote ends up with, and whether the remote was created
(`git.Repo.create_remote` succeeded) or an existing one was updated
(`create_remote` raised and `set_url` was called). -/
structure AttachResult where
  originUrl : String
  created : Bool
deriving DecidableEq, Repr

/-- Embedding of deploy.py lines 144-148: `create_remote("origin", url)`
succeeds exactly when no `origin` remote exists; otherwise the raised
`GitCommandError` is caught and the existing remote's URL is set. -/
def attach_origin (existingOrigin : Option String) (url : String) : AttachResult :=
  match existingOrigin with
  | none => ⟨url, true⟩
  | some _ => ⟨url, false⟩

lemma replaceAllAux_no_occurrence (old new : List Char) :
    ∀ fuel s, s.length ≤ fuel → hasSub old s = false → replaceAllAux old new fuel s = s := by
  intro fuel
  induction fuel with
  | zero =>
      intro s hs _
      have : s = [] := List.length_eq_zero.mp (Nat.le_zero.mp hs)
      rw [this]; rfl
  | succ k ih =>
      intro s hs hno
      cases s with
      | nil => rfl
      | cons c rest =>
          have hsplit : old.isPrefixOf (c :: rest) = false ∧ hasSub old rest = false := by
            have := hno
            simp only [hasSub, Bool.or_eq_false_iff] at this
            exact this
          simp only [replaceAllAux, hsplit.1, Bool.false_eq_true, if_false]
          have hlen : rest.length ≤ k := by
            simp only [List.length_cons] at hs
            omega
          rw [ih rest hlen hsplit.2]

lemma replaceAllAux_append (old new rest : List Char) (hne : old ≠ [])
    (hno : hasSub old rest = false) :
    ∀ fuel, old.length + rest.length ≤ fuel →
      replaceAllAux old new fuel (old ++ rest) = new ++ rest := by
  intro fuel hf
  cases old with
  | nil => exact absurd rfl hne
  | cons o os =>
      cases fuel with
      | zero => simp only [List.length_cons] at hf; omega
      | succ k =>
          have hpre : (o :: os).isPrefixOf (o :: (os ++ rest)) = true := by
            have := isPrefixOf_self_append (o :: os) rest
            simpa [List.cons_append] using this
          have hdrop : (o :: (os ++ rest)).drop (o :: os).length = rest := by
            simpa [List.cons_append] using List.drop_left (o :: os) rest
          show replaceAllAux (o :: os) new (k + 1) (o :: (os ++ rest)) = new ++ rest
          simp only [replaceAllAux, hpre, if_true]
          rw [hdrop]
          have hlen : rest.length ≤ k := by
            simp only [List.length_cons] at hf
            omega
          rw [replaceAllAux_no_occurrence (o :: os) new k rest hlen hno]

/-- C9 counterexample: the claim says the authenticated push URL is the
clone URL with its `https://` scheme *prefix* replaced, but the code uses
Python `str.replace`, which replaces every occurrence: on a clone URL
containing `https://` twice the token is embedded twice, and the result
differs from the prefix replacement. -/
theorem authed_url_not_scheme_replacement_cex :
    authed_url "https://host/https://x" "t" = "https://t@host/https://t@x" ∧
    specAuthedUrl "https://host/https://x" "t" = "https://t@host/https://x" ∧
    authed_url "https://host/https://x" "t" ≠ specAuthedUrl "https://host/https://x" "t" := by
  refine ⟨by decide, by decide, by decide⟩

/-- C9 (amended): the authenticated push URL is the clone URL with every
occurrence of `https://` replaced by `https://{token}@`; whenever
`https://` occurs in the clone URL only as its scheme prefix — as in every
URL of the form `https://rest` with no further occurrence in `rest`, which
covers real GitHub clone URLs — this coincides with replacing the scheme
prefix.  The resulting URL is attached as the `origin` push remote: the
remote is created when absent, and the existing remote of that name is
updated to this URL otherwise. -/
theorem authed_url_replaces_every_occurrence (rest token : String)
    (hno : hasSub "https://".data rest.data = false) :
    authed_url ("https://" ++ rest) token = "https://" ++ token ++ "@" ++ rest ∧
    (∀ existingOrigin url, (attach_origin existingOrigin url).originUrl = url ∧
      ((attach_origin existingOrigin url).created = true ↔ existingOrigin = none)) := by
  constructor
  · apply String.ext
    show replaceAllAux "https://".data ("https://" ++ token ++ "@").data
        ("https://" ++ rest).data.length ("https://" ++ rest).data
      = ("https://" ++ token ++ "@" ++ rest).data
    rw [String.data_append "https://" rest]
    rw [replaceAllAux_append "https://".data ("https://" ++ token ++ "@").data rest.data
      (by decide) hno _ (by simp; omega)]
    simp [String.data_append]
  · intro existingOrigin url
    cases existingOrigin <;> simp [attach_origin]

/-- Witness for C9's amended theorem on a real GitHub clone URL: the
token is embedded at the scheme, and attaching to a repository with no
`origin` remote creates it while an existing `origin` is updated. -/
theorem authed_url_replaces_every_occurrence_witness :
    authed_url ("https://" ++ "github.com/alice/portfolio.git") "tok"
      = "https://" ++ "tok" ++ "@" ++ "github.com/alice/portfolio.git" ∧
    (attach_origin none "u").created = true ∧
    (attach_origin (some "old") "u").originUrl = "u" := by
  have h := authed_url_replaces_every_occurrence "github.com/alice/portfolio.git" "tok" (by decide)
  exact ⟨h.1, ((h.2 none "u").2).mpr rfl, (h.2 (some "old") "u").1⟩
